import Mathlib

/-!
Verification of the OCPP proxy core (ocpp-proxy-alert): a shallow embedding of
the message parser, the per-client router, the proxy session logic, the
upstream reconnection state machine and the listener registry, with theorems
settling the specification's claims about them.

Conventions of the embedding:
* JavaScript values produced by `JSON.parse` are modelled by the inductive
  `Json` below (numbers as integers: no claim involves fractional numbers,
  and object payloads are carried opaquely).
* A raw WebSocket text frame is a `RawFrame`: the opaque text together with
  the result of `JSON.parse` on it (`none` when parsing throws).
* JavaScript `Map` and `Set` objects keyed by message IDs are association
  lists and lists without duplicates; insertion order is preserved, which
  mirrors `Map`/`Set` iteration order.
* Side effects (socket writes, log warnings, notifier calls, client closes)
  are reified as an `Action` list returned next to the new state, in program
  order.
-/

namespace OcppProxy

/- JSON values as produced by `JSON.parse`, mutually with lists of them so
that decidable equality can be derived.  Numbers are integers (no claim
involves a fractional number) and objects are carried as an opaque tag: the
proxy routes frames verbatim and looks only at the first two array elements,
never inside a payload object.  Strict equality on primitives is value
equality, which this structural equality mirrors; on composites it is
reference equality, so theorems comparing message IDs across frames carry a
`Json.isPrim` hypothesis. -/
mutual
/-- JSON values as produced by `JSON.parse`. -/
inductive Json where
  | null : Json
  | bool (b : Bool) : Json
  | num (n : Int) : Json
  | str (s : String) : Json
  | arr (elems : JsonList) : Json
  | obj (tag : Nat) : Json
deriving DecidableEq, Repr
/-- Lists of JSON values (JSON array contents). -/
inductive JsonList where
  | nil : JsonList
  | cons (head : Json) (tail : JsonList) : JsonList
deriving DecidableEq, Repr
end

/-- A primitive JSON value: one on which JavaScript `===` (and hence `Map` /
`Set` keying) agrees with structural equality. -/
def Json.isPrim : Json → Bool
  | Json.arr _ => false
  | Json.obj _ => false
  | _ => true

/-- One raw text frame: the opaque text and what `JSON.parse` yields on it
(`none` when it throws). -/
structure RawFrame where
  text : String
  decoded : Option Json
deriving DecidableEq, Repr

/-- The record `parseMessage` builds: `{ raw, type, messageId, parsed }`
(src/ocpp-router.js `parseMessage`).  In JavaScript `type` and `messageId`
are whatever sits in the first two array slots; no typing is enforced. -/
structure OcppMessage where
  raw : RawFrame
  type : Json
  messageId : Json
  parsed : JsonList
deriving DecidableEq, Repr

/-- `OcppRouter.parseMessage` (src/ocpp-router.js lines 26-42): JSON.parse the
data; return `null` unless the result is an array of length at least 2;
otherwise return `{raw, type: message[0], messageId: message[1], parsed}`.
The match on two leading cons cells is exactly the check
`Array.isArray(message) && message.length >= 2` together with reading
`message[0]` and `message[1]`. -/
def parseMessage (data : RawFrame) : Option OcppMessage :=
  match data.decoded with
  | some (Json.arr (JsonList.cons t (JsonList.cons i rest))) =>
      some { raw := data, type := t, messageId := i,
             parsed := JsonList.cons t (JsonList.cons i rest) }
  | _ => none

/-! ### Router state (src/ocpp-router.js) -/

/-- JavaScript truthiness of a string-or-undefined value: `undefined` and the
empty string are falsy. -/
def truthyStr : Option String → Bool
  | some s => s ≠ ""
  | none => false

/-- `Map.get`: first (and only) binding of the key. -/
def mapGet (m : List (Json × String)) (k : Json) : Option String :=
  (m.find? (fun p => p.1 == k)).map Prod.snd

/-- `Map.delete`: drop the binding of the key. -/
def mapDelete (m : List (Json × String)) (k : Json) : List (Json × String) :=
  m.filter (fun p => !(p.1 == k))

/-- `Map.set`: overwrite the binding, or append a new one (the claims never
depend on `Map` insertion order, only on lookup). -/
def mapSet (m : List (Json × String)) (k : Json) (v : String) : List (Json × String) :=
  mapDelete m k ++ [(k, v)]

/-- `Set.add`: append when absent. -/
def setAdd (s : List Json) (k : Json) : List Json :=
  if s.contains k then s else s ++ [k]

/-- `Set.has`. -/
def setHas (s : List Json) (k : Json) : Bool :=
  s.contains k

/-- The two correlation tables of `OcppRouter`: `messageIdToServer` (CALLs
initiated by an upstream, keyed by message ID) and `clientCallIds` (message
IDs of CALLs the client originated). -/
structure RouterState where
  messageIdToServer : List (Json × String)
  clientCallIds : List Json
deriving DecidableEq, Repr

def emptyRouter : RouterState := { messageIdToServer := [], clientCallIds := [] }

/-- `OcppRouter.registerClientCall` (lines 48-51). -/
def registerClientCall (r : RouterState) (messageId : Json) : RouterState :=
  { r with clientCallIds := setAdd r.clientCallIds messageId }

/-- `OcppRouter.shouldRelayResponseToClient` (lines 61-79): relay unless the
ID belongs to a client CALL and the responding server is not the primary.
`primaryServerName` is string-or-null in the source, hence `Option String`;
the strict comparison `serverName === primaryServerName` is
`primaryServerName == some serverName`.  The function does not mutate the
tables: the entry is deliberately kept so later secondaries stay filtered. -/
def shouldRelayResponseToClient (r : RouterState) (messageId : Json)
    (serverName : String) (primaryServerName : Option String) : Bool :=
  if !(setHas r.clientCallIds messageId) then true
  else if primaryServerName == some serverName then true
  else false

/-- `OcppRouter.registerServerCall` (lines 86-89). -/
def registerServerCall (r : RouterState) (messageId : Json) (serverName : String) :
    RouterState :=
  { r with messageIdToServer := mapSet r.messageIdToServer messageId serverName }

/-- `OcppRouter.getServerForResponse` (lines 96-104): look the ID up and, when
the result is truthy, delete the binding (one-shot). -/
def getServerForResponse (r : RouterState) (messageId : Json) :
    Option String × RouterState :=
  let serverName := mapGet r.messageIdToServer messageId
  if truthyStr serverName then
    (serverName, { r with messageIdToServer := mapDelete r.messageIdToServer messageId })
  else
    (serverName, r)

/-- The routing decision record of `routeClientMessage`. -/
structure Routing where
  sendToAll : Bool
  sendToServer : Option String
deriving DecidableEq, Repr

/-- Observable side effects of the proxy, in program order: upstream socket
writes, client socket writes, log warnings, notifier calls, router
registrations and client closes. -/
inductive Action where
  | sendUpstream (name : String) (data : RawFrame)
  | warnNotConnected (name : String)
  | registerCall (messageId : Json)
  | notifyCallFromClient (data : RawFrame)
  | sendClient (data : RawFrame)
  | warnNoServerMapping (messageId : Json)
  | warnUnknownType (t : Json)
  | warnTargetUnavailable (name : String)
  | warnInvalidClient
  | closeClient (code : Nat) (reason : String)
deriving DecidableEq, Repr

/-- `OcppRouter.routeClientMessage` (lines 111-140).  Type 2 broadcasts; type
3/4 goes to the server recorded for the ID (removing the entry) or is dropped
with a warning; anything else is dropped with a warning.  The two JavaScript
truthiness tests on the looked-up name collapse to one here because
`getServerForResponse` already returns the name it looked up. -/
def routeClientMessage (r : RouterState) (message : OcppMessage) :
    Routing × RouterState × List Action :=
  if message.type == Json.num 2 then
    ({ sendToAll := true, sendToServer := none }, r, [])
  else if message.type == Json.num 3 || message.type == Json.num 4 then
    let res := getServerForResponse r message.messageId
    if truthyStr res.1 then
      ({ sendToAll := false, sendToServer := res.1 }, res.2, [])
    else
      ({ sendToAll := false, sendToServer := none }, res.2,
        [Action.warnNoServerMapping message.messageId])
  else
    ({ sendToAll := false, sendToServer := none }, r,
      [Action.warnUnknownType message.type])

/-- `OcppRouter.handleServerMessage` (lines 147-158): register upstream CALLs,
nothing else. -/
def handleServerMessage (r : RouterState) (message : Option OcppMessage)
    (serverName : String) : RouterState :=
  match message with
  | none => r
  | some msg =>
      if msg.type == Json.num 2 then registerServerCall r msg.messageId serverName
      else r

/-- `OcppRouter.clear` (lines 163-167). -/
def clearRouter (_r : RouterState) : RouterState := emptyRouter

/-! ### Proxy session (src/proxy.js) -/

/-- The session's view of one upstream link: the fields of
`UpstreamConnection` that `OcppProxy` reads (src/upstream.js constructor). -/
structure Upstream where
  name : String
  isConnected : Bool
  wasEverConnected : Bool
  reconnectAttempts : Nat
  maxReconnectAttempts : Nat
deriving DecidableEq, Repr

/-- `UpstreamConnection.send` as observed by the session (src/upstream.js
lines 137-150): write when connected, otherwise warn and do nothing. -/
def upstreamSend (u : Upstream) (data : RawFrame) : Action :=
  if u.isConnected then Action.sendUpstream u.name data
  else Action.warnNotConnected u.name

/-- `OcppProxy.handleClientMessage` (src/proxy.js lines 204-241).  Invalid
frames are warned about and ignored.  A broadcast (type 2) first registers
the client CALL and notifies, *then* writes to every connected upstream,
warning for each disconnected one.  A directed reply goes to the first
upstream carrying the target name when it is connected, else a warning. -/
def handleClientMessage (r : RouterState) (upstreams : List Upstream)
    (data : RawFrame) : RouterState × List Action :=
  match parseMessage data with
  | none => (r, [Action.warnInvalidClient])
  | some msg =>
    let res := routeClientMessage r msg
    let routing := res.1
    let r1 := res.2.1
    let warns := res.2.2
    if routing.sendToAll then
      let pre : RouterState × List Action :=
        if msg.type == Json.num 2 then
          (registerClientCall r1 msg.messageId,
            [Action.registerCall msg.messageId, Action.notifyCallFromClient data])
        else (r1, [])
      (pre.1, warns ++ pre.2 ++ upstreams.map (fun u => upstreamSend u data))
    else
      match routing.sendToServer with
      | some target =>
          match upstreams.find? (fun u => u.name == target) with
          | some u =>
              if u.isConnected then (r1, warns ++ [Action.sendUpstream u.name data])
              else (r1, warns ++ [Action.warnTargetUnavailable target])
          | none => (r1, warns ++ [Action.warnTargetUnavailable target])
      | none => (r1, warns)

/-- `OcppProxy.handleUpstreamMessage` (src/proxy.js lines 250-278).  Parse;
give the router its bookkeeping; for a parsed type-3/4 frame ask
`shouldRelayResponseToClient` with the name of the upstream at position 0,
and stop when it refuses; otherwise relay the raw frame verbatim to the
client whenever the client socket is open. -/
def handleUpstreamMessage (r : RouterState) (upstreams : List Upstream)
    (clientOpen : Bool) (data : RawFrame) (serverName : String) :
    RouterState × List Action :=
  let message := parseMessage data
  let r1 := handleServerMessage r message serverName
  let dropped :=
    match message with
    | some msg =>
        if msg.type == Json.num 3 || msg.type == Json.num 4 then
          let primaryServerName := (upstreams.head?).map Upstream.name
          !(shouldRelayResponseToClient r1 msg.messageId serverName primaryServerName)
        else false
    | none => false
  if dropped then (r1, [])
  else if clientOpen then (r1, [Action.sendClient data])
  else (r1, [])

/-- The per-client session record: router, ordered upstream links,
pre-connect message buffer, client socket state and liveness (present in the
`clientConnections` registry). -/
structure SessionState where
  router : RouterState
  upstreams : List Upstream
  messageBuffer : List RawFrame
  clientOpen : Bool
  alive : Bool
deriving DecidableEq, Repr

/-- The client `message` handler (src/proxy.js lines 169-181): while no
upstream is connected the raw frame is appended to the pre-connect buffer;
otherwise it goes through `handleClientMessage`. -/
def onClientMessage (s : SessionState) (data : RawFrame) :
    SessionState × List Action :=
  if !(s.upstreams.any (fun u => u.isConnected)) then
    ({ s with messageBuffer := s.messageBuffer ++ [data] }, [])
  else
    let res := handleClientMessage s.router s.upstreams data
    ({ s with router := res.1 }, res.2)

/-- The buffered frames re-fed one by one through `handleClientMessage`,
threading the router (the primary-drain loop of `sendBufferToUpstream`). -/
def routeBuffer (upstreams : List Upstream) :
    RouterState → List RawFrame → RouterState × List Action
  | r, [] => (r, [])
  | r, m :: rest =>
      let res := handleClientMessage r upstreams m
      let res2 := routeBuffer upstreams res.1 rest
      (res2.1, res.2 ++ res2.2)

/-- `OcppProxy.sendBufferToUpstream` (src/proxy.js lines 288-315), for the
upstream at position `k` (the source compares the connecting link by object
identity with `upstreams[0]`, i.e. by position).  Empty buffer: nothing.
Primary (`k = 0`): re-feed every buffered frame through the normal client
path.  Secondary: send every buffered frame directly to that link only. -/
def sendBufferToUpstream (s : SessionState) (k : Nat) :
    SessionState × List Action :=
  if s.messageBuffer = [] then (s, [])
  else
    match s.upstreams.get? k with
    | none => (s, [])
    | some u =>
        if k = 0 then
          let res := routeBuffer s.upstreams s.router s.messageBuffer
          ({ s with router := res.1 }, res.2)
        else
          (s, s.messageBuffer.map (fun m => upstreamSend u m))

/-- The quiescence test of `flushMessageBufferIfAllConnected` (src/proxy.js
line 329): every upstream is connected or has exhausted reconnection. -/
def allResolved (upstreams : List Upstream) : Bool :=
  upstreams.all (fun u => u.isConnected || decide (u.maxReconnectAttempts ≤ u.reconnectAttempts))

/-- `OcppProxy.flushMessageBufferIfAllConnected` (src/proxy.js lines
321-336): clear a non-empty buffer exactly when every upstream is resolved. -/
def flushMessageBufferIfAllConnected (s : SessionState) : SessionState :=
  if s.messageBuffer = [] then s
  else if allResolved s.upstreams then { s with messageBuffer := [] }
  else s

/-- The `onConnected` callback wired in `handleClientConnection` (src/proxy.js
lines 141-149): drain the buffer toward the link that connected, then try to
flush.  The caller has already flipped that link's `isConnected` flag. -/
def onUpstreamConnected (s : SessionState) (k : Nat) :
    SessionState × List Action :=
  let res := sendBufferToUpstream s k
  (flushMessageBufferIfAllConnected res.1, res.2)

/-- `OcppProxy.cleanupClientConnection` (src/proxy.js lines 373-393) as it
affects the session record: upstreams closed, router cleared, session removed
from the registry. -/
def cleanupSession (s : SessionState) : SessionState :=
  { s with
    upstreams := s.upstreams.map (fun u => { u with isConnected := false }),
    router := clearRouter s.router,
    alive := false }

/-- `OcppProxy.checkUpstreamsStatus` (src/proxy.js lines 342-367): keep the
session if some upstream is still in its initial connection attempts;
otherwise, when every upstream is disconnected, close the client with 1001
and tear the session down. -/
def checkUpstreamsStatus (s : SessionState) : SessionState × List Action :=
  let someStillConnecting := s.upstreams.any (fun u =>
    !u.isConnected && !u.wasEverConnected &&
      decide (u.reconnectAttempts < u.maxReconnectAttempts))
  if someStillConnecting then (s, [])
  else
    let allDisconnected := s.upstreams.all (fun u => !u.isConnected)
    if allDisconnected then
      ({ cleanupSession s with clientOpen := false },
        [Action.closeClient 1001 "All upstream servers unavailable"])
    else (s, [])

/-- Apply `f` to the upstream at position `k`. -/
def updateAt (ups : List Upstream) (k : Nat) (f : Upstream → Upstream) :
    List Upstream :=
  ups.mapIdx (fun i u => if i = k then f u else u)

/-- The session's event stream: each constructor is one entry point of
`OcppProxy` into the session's state. -/
inductive SessionEvent where
  | clientFrame (data : RawFrame) : SessionEvent
  | upstreamFrame (data : RawFrame) (serverName : String) : SessionEvent
  | upstreamConnected (k : Nat) : SessionEvent
  | upstreamDisconnected (k : Nat) : SessionEvent
  | upstreamGaveUp : SessionEvent
  | clientClosed : SessionEvent
deriving DecidableEq, Repr

/-- One step of the session: dispatch an event to the handler `OcppProxy`
installs for it (src/proxy.js lines 136-195).  The link's `open` / `close`
handlers flip its flags before the session callback runs.  A torn-down
session (absent from `clientConnections`) no longer reacts. -/
def sessionStep (s : SessionState) : SessionEvent → SessionState × List Action
  | SessionEvent.clientFrame data =>
      if s.alive then onClientMessage s data else (s, [])
  | SessionEvent.upstreamFrame data serverName =>
      if s.alive then
        let res := handleUpstreamMessage s.router s.upstreams s.clientOpen data serverName
        ({ s with router := res.1 }, res.2)
      else (s, [])
  | SessionEvent.upstreamConnected k =>
      if s.alive then
        let s1 := { s with upstreams := updateAt s.upstreams k (fun u =>
          { u with isConnected := true, wasEverConnected := true, reconnectAttempts := 0 }) }
        onUpstreamConnected s1 k
      else (s, [])
  | SessionEvent.upstreamDisconnected k =>
      if s.alive then
        let s1 := { s with upstreams := updateAt s.upstreams k (fun u =>
          { u with isConnected := false }) }
        checkUpstreamsStatus s1
      else (s, [])
  | SessionEvent.upstreamGaveUp =>
      if s.alive then checkUpstreamsStatus (flushMessageBufferIfAllConnected s)
      else (s, [])
  | SessionEvent.clientClosed =>
      if s.alive then (cleanupSession s, []) else (s, [])

/-- Run a list of session events. -/
def sessionRun (s : SessionState) : List SessionEvent → SessionState
  | [] => s
  | e :: rest => sessionRun (sessionStep s e).1 rest

/-! ### Upstream link state machine (src/upstream.js) -/

/-- The phase of the link's current WebSocket object: no live socket,
connecting, or open.  A socket whose `close` event has fired emits nothing
further and is `idle` here. -/
inductive SockPhase where
  | idle : SockPhase
  | connecting : SockPhase
  | opened : SockPhase
deriving DecidableEq, Repr

/-- The mutable fields of `UpstreamConnection` that drive reconnection
(src/upstream.js constructor, lines 10-28). -/
structure LinkState where
  sock : SockPhase
  isConnected : Bool
  wasEverConnected : Bool
  closed : Bool
  reconnectAttempts : Nat
  maxReconnectAttempts : Nat
  timer : Option Nat
deriving DecidableEq, Repr

/-- The callbacks and timers a link step fires, in order. -/
inductive LinkOut where
  | connectedOut : LinkOut
  | disconnectedOut : LinkOut
  | gaveUp : LinkOut
  | scheduled (delay : Nat) : LinkOut
deriving DecidableEq, Repr

/-- The back-off delay of attempt `n` (1-indexed), from src/upstream.js line
122: `Math.min(5000 * Math.pow(2, this.reconnectAttempts - 1), 60000)`,
evaluated after the increment, so `reconnectAttempts = n`. -/
def reconnectDelay (n : Nat) : Nat :=
  min (5000 * 2 ^ (n - 1)) 60000

/-- `UpstreamConnection.scheduleReconnect` (src/upstream.js lines 104-131):
no-op when explicitly closed or a timer is already pending; when the attempt
budget is exhausted fire `onGaveUp` (leaving every field, `closed` included,
unchanged); otherwise increment the attempt counter and set the back-off
timer. -/
def scheduleReconnect (s : LinkState) : LinkState × List LinkOut :=
  if s.closed then (s, [])
  else if s.timer.isSome then (s, [])
  else if s.maxReconnectAttempts ≤ s.reconnectAttempts then (s, [LinkOut.gaveUp])
  else
    let n := s.reconnectAttempts + 1
    ({ s with reconnectAttempts := n, timer := some (reconnectDelay n) },
      [LinkOut.scheduled (reconnectDelay n)])

/-- `UpstreamConnection.connect` (src/upstream.js lines 40-99): return at once
when already connected, otherwise start a new WebSocket (its open / error /
close outcomes arrive later as events). -/
def connectLink (s : LinkState) : LinkState :=
  if s.isConnected then s else { s with sock := SockPhase.connecting }

/-- The event sources that reach one link: its socket opening, its socket
closing (errors are followed by a close), its back-off timer firing, and the
owning session closing it. -/
inductive LinkEvent where
  | sockOpen : LinkEvent
  | sockClose : LinkEvent
  | timerFire : LinkEvent
  | ownerClose : LinkEvent
deriving DecidableEq, Repr

/-- One step of the link state machine, from the handlers in src/upstream.js:
`open` (lines 61-70), `close` (lines 82-94), the timer body (lines 127-130)
and `close()` (lines 155-170).  Events whose source is spent (no socket, no
timer) do nothing. -/
def linkStep (s : LinkState) : LinkEvent → LinkState × List LinkOut
  | LinkEvent.sockOpen =>
      if s.sock = SockPhase.connecting then
        ({ s with
            sock := SockPhase.opened
            isConnected := true
            wasEverConnected := true
            reconnectAttempts := 0 },
          [LinkOut.connectedOut])
      else (s, [])
  | LinkEvent.sockClose =>
      if s.sock = SockPhase.connecting ∨ s.sock = SockPhase.opened then
        let base := { s with sock := SockPhase.idle, isConnected := false }
        if s.closed then (base, [LinkOut.disconnectedOut])
        else
          let r := scheduleReconnect base
          (r.1, LinkOut.disconnectedOut :: r.2)
      else (s, [])
  | LinkEvent.timerFire =>
      match s.timer with
      | some _ => (connectLink { s with timer := none }, [])
      | none => (s, [])
  | LinkEvent.ownerClose =>
      ({ s with
          closed := true
          timer := none
          sock := SockPhase.idle
          isConnected := false }, [])

/-- Run a list of link events, accumulating the outputs in order. -/
def linkRun (s : LinkState) : List LinkEvent → LinkState × List LinkOut
  | [] => (s, [])
  | e :: rest =>
      let r := linkStep s e
      let r2 := linkRun r.1 rest
      (r2.1, r.2 ++ r2.2)

/-- A fresh link right after the session calls `connect()` on it: the
constructor's fields (`maxReconnectAttempts = 10`) with the first connection
attempt under way. -/
def initLink : LinkState :=
  { sock := SockPhase.connecting, isConnected := false,
    wasEverConnected := false, closed := false, reconnectAttempts := 0,
    maxReconnectAttempts := 10, timer := none }

/-! ### Upstream headers (src/upstream.js, src/proxy.js) -/

/-- The immutable identity of one `UpstreamConnection`: exactly the fields
the five-parameter constructor stores (src/upstream.js lines 10-28). -/
structure UpstreamConnection where
  name : String
  baseUrl : String
  clientId : String
  protocol : Option String
  clientIp : Option String
deriving DecidableEq, Repr

/-- The `new UpstreamConnection(...)` call as written in
`handleClientConnection` (src/proxy.js line 120) against the constructor
(src/upstream.js line 10): the constructor declares five parameters, so the
sixth argument — the forwarded headers object — has no matching parameter
and is discarded.  `clientIp || null` maps the empty string to `null`. -/
def mkUpstreamConnection (name baseUrl clientId : String)
    (protocol : Option String) (clientIp : String)
    (_forwardedHeaders : List (String × String)) : UpstreamConnection :=
  { name := name, baseUrl := baseUrl, clientId := clientId,
    protocol := protocol,
    clientIp := if clientIp = "" then none else some clientIp }

/-- The headers `connect()` opens the upstream WebSocket with
(src/upstream.js lines 50-54): `X-Forwarded-For` and `X-Real-IP` when the
client IP is truthy, nothing else. -/
def connectHeaders (u : UpstreamConnection) : List (String × String) :=
  match u.clientIp with
  | some ip => [("X-Forwarded-For", ip), ("X-Real-IP", ip)]
  | none => []

/-- The forwarded-header extraction of `handleClientConnection` (src/proxy.js
lines 109-116): collect `Authorization` and `User-Agent` when the client
request carries them (an argument of `none` covers absent or falsy). -/
def forwardedHeadersOf (authorization userAgent : Option String) :
    List (String × String) :=
  (match authorization with
    | some a => [("Authorization", a)]
    | none => []) ++
  (match userAgent with
    | some ua => [("User-Agent", ua)]
    | none => [])

/-- The upstream record built for one client request (src/proxy.js lines
109-122 composed with the constructor). -/
def upstreamForConnection (name url clientId : String)
    (protocol : Option String) (clientIp : String)
    (authorization userAgent : Option String) : UpstreamConnection :=
  mkUpstreamConnection name url clientId protocol clientIp
    (forwardedHeadersOf authorization userAgent)

/-! ### Listener registry (src/proxy.js lines 82-89, 133) -/

/-- One entry of the `clientConnections` map: the client socket (abstracted
to an identity number, since the map is keyed by object identity) and the
session's client ID. -/
structure RegEntry where
  ws : Nat
  clientId : String
deriving DecidableEq, Repr

/-- The duplicate-ID scan and registration of `handleClientConnection`
(src/proxy.js lines 82-89 and 133): find the first live session with the
same client ID; if there is one, clean it up (removing it from the map) and
close its socket with 1001, then register the new session. -/
def handleNewConnection (reg : List RegEntry) (newWs : Nat)
    (clientId : String) : List RegEntry × List Action :=
  let scan : List RegEntry × List Action :=
    match reg.find? (fun e => e.clientId == clientId) with
    | some e =>
        (reg.filter (fun x => !(x.ws == e.ws)),
          [Action.closeClient 1001 "Replaced by a new connection"])
    | none => (reg, [])
  (scan.1 ++ [{ ws := newWs, clientId := clientId }], scan.2)

/-- At most one registry entry per client ID. -/
def uniqueIds (reg : List RegEntry) : Prop :=
  reg.Pairwise (fun a b => a.clientId ≠ b.clientId)

/-! ### Helper lemmas on the table operations -/

theorem mapGet_mapDelete_self (m : List (Json × String)) (k : Json) :
    mapGet (mapDelete m k) k = none := by
  simp [mapGet, mapDelete, Option.map_eq_none', List.find?_eq_none, List.mem_filter]

theorem mapGet_mapSet_self (m : List (Json × String)) (k : Json) (v : String) :
    mapGet (mapSet m k v) k = some v := by
  have h := mapGet_mapDelete_self m k
  simp only [mapGet, Option.map_eq_none'] at h
  simp [mapGet, mapSet, List.find?_append, h]

theorem mem_setAdd_of_mem (s : List Json) (k i : Json) (h : i ∈ s) :
    i ∈ setAdd s k := by
  by_cases hm : k ∈ s
  · simpa [setAdd, hm] using h
  · simp [setAdd, hm]
    exact Or.inl h

theorem mem_setAdd_self (s : List Json) (k : Json) : k ∈ setAdd s k := by
  by_cases hm : k ∈ s
  · simp [setAdd, hm]
  · simp [setAdd, hm]

theorem setHas_iff_mem (s : List Json) (k : Json) :
    setHas s k = true ↔ k ∈ s := by
  constructor
  · intro h
    rcases List.contains_iff_exists_mem_beq.mp h with ⟨a, ha, hbeq⟩
    exact (beq_iff_eq.mp hbeq) ▸ ha
  · intro h
    exact List.contains_iff_exists_mem_beq.mpr ⟨k, h, beq_self_eq_true k⟩

/-! ### Claim C2: the parser's accepted shape -/

/-- The accepted shape as the specification words it (section 4.A): a JSON
array of length at least 2 whose first element is an integer among 2, 3, 4
and whose second element is a string.  Stated from the spec's words, for
comparison against the source's `parseMessage`. -/
def specAcceptedShape (data : RawFrame) : Bool :=
  match data.decoded with
  | some (Json.arr (JsonList.cons (Json.num t) (JsonList.cons (Json.str _) _))) =>
      t == 2 || t == 3 || t == 4
  | _ => false

/-- A frame that decodes as the two-string array: it fails the spec's shape
(its first element is not an integer) yet `parseMessage` accepts it. -/
def frameStrHead : RawFrame :=
  { text := "[\"a\",\"b\"]"
    decoded := some (Json.arr (JsonList.cons (Json.str "a")
      (JsonList.cons (Json.str "b") JsonList.nil))) }

/-- C2, counterexample: the claim says a frame whose first element is not an
integer in 2,3,4 (or whose second is not a string) yields no message, but
`parseMessage` checks neither: on the concrete frame `["a","b"]` it fails
the spec's accepted shape and still produces a message. -/
theorem parseMessage_untyped_head_counterexample :
    specAcceptedShape frameStrHead = false ∧
      (parseMessage frameStrHead).isSome = true :=
  ⟨rfl, rfl⟩

/-- C2, amended: `parseMessage` produces a message exactly when the frame
decodes as a JSON array of length at least 2; it performs no type check on
the first two elements, and the produced (type, id) are the array's first
two elements whatever their JSON types. -/
theorem parseMessage_produces_iff_array_of_length_two (data : RawFrame) :
    ((parseMessage data).isSome = true ↔
      ∃ t i rest, data.decoded =
        some (Json.arr (JsonList.cons t (JsonList.cons i rest)))) ∧
    (∀ t i rest,
      data.decoded = some (Json.arr (JsonList.cons t (JsonList.cons i rest))) →
      parseMessage data = some { raw := data
                                 type := t
                                 messageId := i
                                 parsed := JsonList.cons t (JsonList.cons i rest) }) := by
  rcases data with ⟨text, decoded⟩
  rcases decoded with _ | j
  · simp [parseMessage]
  · rcases j with _ | b | n | s | elems | tag
    case arr =>
      rcases elems with _ | ⟨t, rest1⟩
      · simp [parseMessage]
      · rcases rest1 with _ | ⟨i, rest⟩
        · simp [parseMessage]
        · simp [parseMessage]
    all_goals simp [parseMessage]

/-! ### Claim C10: unparseable upstream frames are relayed verbatim -/

/-- C10: a frame from an upstream that fails to parse skips the router
bookkeeping and the reply filter and is relayed verbatim to the client
exactly when the client socket is open. -/
theorem unparseable_upstream_frame_relayed (r : RouterState)
    (upstreams : List Upstream) (data : RawFrame) (serverName : String)
    (h : parseMessage data = none) :
    handleUpstreamMessage r upstreams true data serverName =
      (r, [Action.sendClient data]) ∧
    handleUpstreamMessage r upstreams false data serverName = (r, []) := by
  constructor <;> simp [handleUpstreamMessage, h, handleServerMessage]

/-- A frame whose text is not JSON at all. -/
def frameNotJson : RawFrame := { text := "not json", decoded := none }

/-- C10 witness at a concrete unparseable frame. -/
theorem unparseable_upstream_frame_relayed_witness :
    handleUpstreamMessage emptyRouter [] true frameNotJson "PRI" =
      (emptyRouter, [Action.sendClient frameNotJson]) ∧
    handleUpstreamMessage emptyRouter [] false frameNotJson "PRI" =
      (emptyRouter, []) :=
  unparseable_upstream_frame_relayed emptyRouter [] frameNotJson "PRI" rfl

/-! ### Claim C6: closing the client when every upstream is terminal -/

/-- C6: on a disconnect or give-up check, the client is closed with 1001
("All upstream servers unavailable") and the session destroyed exactly when
every upstream is disconnected and each has either been connected before or
exhausted its reconnection attempts; an upstream that never connected and
still has attempts left keeps the session untouched. -/
theorem close_client_iff_upstreams_terminal (s : SessionState) :
    ((checkUpstreamsStatus s).2 =
        [Action.closeClient 1001 "All upstream servers unavailable"] ↔
      (∀ u ∈ s.upstreams, u.isConnected = false) ∧
        (∀ u ∈ s.upstreams, u.wasEverConnected = true ∨
          u.maxReconnectAttempts ≤ u.reconnectAttempts)) ∧
    ((checkUpstreamsStatus s).2 ≠ [] →
      (checkUpstreamsStatus s).1.alive = false ∧
        (checkUpstreamsStatus s).1.clientOpen = false) ∧
    (∀ u ∈ s.upstreams, u.wasEverConnected = false →
      u.reconnectAttempts < u.maxReconnectAttempts →
      checkUpstreamsStatus s = (s, [])) := by
  unfold checkUpstreamsStatus
  by_cases hA : s.upstreams.any (fun u =>
      !u.isConnected && !u.wasEverConnected &&
        decide (u.reconnectAttempts < u.maxReconnectAttempts)) = true
  · rw [if_pos hA]
    rcases List.any_eq_true.mp hA with ⟨u, hu, hprop⟩
    simp only [Bool.and_eq_true, Bool.not_eq_true', decide_eq_true_eq] at hprop
    obtain ⟨⟨hnc, hne⟩, hlt⟩ := hprop
    refine ⟨?_, by simp, fun v _ _ _ => rfl⟩
    constructor
    · intro h; exact absurd h (by simp)
    · rintro ⟨hall, hterm⟩
      rcases hterm u hu with he | hm
      · exact absurd he (by simp [hne])
      · omega
  · rw [if_neg hA]
    by_cases hall : s.upstreams.all (fun u => !u.isConnected) = true
    · rw [if_pos hall]
      have hAll := List.all_eq_true.mp hall
      refine ⟨?_, ?_, ?_⟩
      · constructor
        · intro _
          refine ⟨fun u hu => by simpa using hAll u hu, fun u hu => ?_⟩
          by_contra hcon
          push_neg at hcon
          obtain ⟨hne, hlt⟩ := hcon
          exact hA (List.any_eq_true.mpr ⟨u, hu, by
            simp [hne, hlt]
            simpa using hAll u hu⟩)
        · intro _; rfl
      · intro _
        simp [cleanupSession]
      · intro u hu hne hlt
        exfalso
        exact hA (List.any_eq_true.mpr ⟨u, hu, by
          simp [hne, hlt]
          simpa using hAll u hu⟩)
    · rw [if_neg hall]
      refine ⟨?_, by simp, fun v _ _ _ => rfl⟩
      constructor
      · intro h; exact absurd h (by simp)
      · rintro ⟨hc, _⟩
        exact absurd (List.all_eq_true.mpr fun u hu => by simp [hc u hu]) hall

/-! ### Claim C8: Authorization and User-Agent are not passed through -/

/-- C8, evaluation at the failing input: for a client request carrying both
an `Authorization` and a `User-Agent` header, `handleClientConnection`
collects them (`forwardedHeadersOf`), but the upstream WebSocket is opened
with only `X-Forwarded-For` and `X-Real-IP`: the constructor of
`UpstreamConnection` declares five parameters and discards the sixth
argument, so the collected headers never reach `connect()`. -/
theorem forwarded_headers_dropped :
    forwardedHeadersOf (some "Basic dGVzdA==") (some "EVSE-Agent/1.0") =
      [("Authorization", "Basic dGVzdA=="), ("User-Agent", "EVSE-Agent/1.0")] ∧
    connectHeaders (upstreamForConnection "PRI" "ws://upstream.example/ocpp/"
        "CP42" (some "ocpp1.6") "10.0.0.5"
        (some "Basic dGVzdA==") (some "EVSE-Agent/1.0")) =
      [("X-Forwarded-For", "10.0.0.5"), ("X-Real-IP", "10.0.0.5")] := by
  constructor
  · rfl
  · simp [connectHeaders, upstreamForConnection, mkUpstreamConnection]

/-! ### Claim C1: only the primary's reply to a client CALL reaches the client -/

theorem shouldRelay_iff (r : RouterState) (id : Json) (serverName pname : String) :
    shouldRelayResponseToClient r id serverName (some pname) = true ↔
      (setHas r.clientCallIds id = false ∨ serverName = pname) := by
  unfold shouldRelayResponseToClient
  by_cases hs : setHas r.clientCallIds id = true
  · simp only [hs, Bool.not_true, Bool.false_eq_true, if_false]
    constructor
    · intro h
      right
      by_cases he : (some pname == some serverName) = true
      · exact (beq_iff_eq.mp he |> Option.some.inj).symm
      · simp [he] at h
    · rintro (h | h)
      · simp [hs] at h
      · simp [h]
  · simp only [Bool.not_eq_true] at hs
    simp [shouldRelayResponseToClient, hs]

theorem handleUpstreamMessage_reply_eq (r : RouterState)
    (upstreams : List Upstream) (primary : Upstream) (data : RawFrame)
    (serverName : String) (msg : OcppMessage)
    (hparse : parseMessage data = some msg)
    (htype : msg.type = Json.num 3 ∨ msg.type = Json.num 4)
    (hhead : upstreams.head? = some primary) :
    handleUpstreamMessage r upstreams true data serverName =
      (r, if shouldRelayResponseToClient r msg.messageId serverName (some primary.name)
          then [Action.sendClient data] else []) := by
  have h2 : (msg.type == Json.num 2) = false := by
    rcases htype with h | h <;> simp [h]
  have h34 : (msg.type == Json.num 3 || msg.type == Json.num 4) = true := by
    rcases htype with h | h <;> simp [h]
  simp only [handleUpstreamMessage, hparse, handleServerMessage, h2,
    Bool.false_eq_true, if_false, h34, if_true, hhead, Option.map_some']
  by_cases hrel :
      shouldRelayResponseToClient r msg.messageId serverName (some primary.name) = true
  · simp [hrel]
  · simp only [Bool.not_eq_true] at hrel
    simp [hrel]

/-- C1: a CALLRESULT/CALLERROR received from an upstream is written to the
(open) client socket iff its ID is no registered client CALL or the sender
is the upstream at position 0; the ID is not removed from `clientCallIds`
when the primary's reply is forwarded, so a later reply to the same ID from
a non-primary upstream is forwarded iff the ID was never a client CALL. -/
theorem upstream_reply_forwarded_iff_primary_or_unknown
    (r : RouterState) (upstreams : List Upstream) (primary : Upstream)
    (data data2 : RawFrame) (serverName serverName2 : String)
    (msg msg2 : OcppMessage)
    (hparse : parseMessage data = some msg)
    (htype : msg.type = Json.num 3 ∨ msg.type = Json.num 4)
    (_hprim : msg.messageId.isPrim = true)
    (hhead : upstreams.head? = some primary)
    (hparse2 : parseMessage data2 = some msg2)
    (htype2 : msg2.type = Json.num 3 ∨ msg2.type = Json.num 4)
    (hid2 : msg2.messageId = msg.messageId)
    (hname2 : serverName2 ≠ primary.name) :
    (Action.sendClient data ∈ (handleUpstreamMessage r upstreams true data serverName).2 ↔
      (setHas r.clientCallIds msg.messageId = false ∨ serverName = primary.name)) ∧
    (handleUpstreamMessage r upstreams true data serverName).1.clientCallIds =
      r.clientCallIds ∧
    (Action.sendClient data2 ∈
        (handleUpstreamMessage (handleUpstreamMessage r upstreams true data serverName).1
          upstreams true data2 serverName2).2 ↔
      setHas r.clientCallIds msg.messageId = false) := by
  have e1 := handleUpstreamMessage_reply_eq r upstreams primary data serverName msg
    hparse htype hhead
  have hfst : (handleUpstreamMessage r upstreams true data serverName).1 = r := by
    rw [e1]
  have e2 := handleUpstreamMessage_reply_eq r upstreams primary data2 serverName2 msg2
    hparse2 htype2 hhead
  refine ⟨?_, ?_, ?_⟩
  · rw [e1]
    by_cases hrel :
        shouldRelayResponseToClient r msg.messageId serverName (some primary.name) = true
    · simp only [hrel, if_true, List.mem_singleton, true_iff]
      exact (shouldRelay_iff r msg.messageId serverName primary.name).mp hrel
    · have hne := hrel
      simp only [Bool.not_eq_true] at hne
      simp only [hne, Bool.false_eq_true, if_false, List.not_mem_nil, false_iff]
      intro hcon
      exact hrel ((shouldRelay_iff r msg.messageId serverName primary.name).mpr hcon)
  · rw [hfst]
  · rw [hfst, e2]
    by_cases hrel :
        shouldRelayResponseToClient r msg2.messageId serverName2 (some primary.name) = true
    · have h2 := (shouldRelay_iff r msg2.messageId serverName2 primary.name).mp hrel
      rw [hid2] at h2
      rcases h2 with h2 | h2
      · simp [hrel, h2]
      · exact absurd h2 hname2
    · have hne := hrel
      simp only [Bool.not_eq_true] at hne
      simp only [hne, Bool.false_eq_true, if_false, List.not_mem_nil, false_iff]
      intro hcon
      exact hrel ((shouldRelay_iff r msg2.messageId serverName2 primary.name).mpr
        (by rw [hid2]; exact Or.inl hcon))

/-- A router that has registered the client CALL `"m1"`. -/
def routerM1 : RouterState :=
  { messageIdToServer := [], clientCallIds := [Json.str "m1"] }

/-- Two connected upstreams named PRI (position 0) and SEC. -/
def upstreamsPriSec : List Upstream :=
  [{ name := "PRI", isConnected := true, wasEverConnected := true
     reconnectAttempts := 0, maxReconnectAttempts := 10 },
   { name := "SEC", isConnected := true, wasEverConnected := true
     reconnectAttempts := 0, maxReconnectAttempts := 10 }]

/-- The frame `[3,"m1"]` as a CALLRESULT reply to the client CALL m1. -/
def frameReplyM1 : RawFrame :=
  { text := "[3,\"m1\"]"
    decoded := some (Json.arr (JsonList.cons (Json.num 3)
      (JsonList.cons (Json.str "m1") JsonList.nil))) }

/-- The parse of `frameReplyM1`. -/
def msgReplyM1 : OcppMessage :=
  { raw := frameReplyM1, type := Json.num 3, messageId := Json.str "m1"
    parsed := JsonList.cons (Json.num 3) (JsonList.cons (Json.str "m1") JsonList.nil) }

/-- C1 witness: with `"m1"` registered as a client CALL and both upstreams
up, PRI's reply is sent to the client, the ID stays registered, and SEC's
reply to the same ID is dropped. -/
theorem upstream_reply_filter_witness :
    Action.sendClient frameReplyM1 ∈
      (handleUpstreamMessage routerM1 upstreamsPriSec true frameReplyM1 "PRI").2 ∧
    (handleUpstreamMessage routerM1 upstreamsPriSec true frameReplyM1 "PRI").1.clientCallIds =
      [Json.str "m1"] ∧
    Action.sendClient frameReplyM1 ∉
      (handleUpstreamMessage
        (handleUpstreamMessage routerM1 upstreamsPriSec true frameReplyM1 "PRI").1
        upstreamsPriSec true frameReplyM1 "SEC").2 := by
  have h := upstream_reply_forwarded_iff_primary_or_unknown routerM1 upstreamsPriSec
    (upstreamsPriSec.get ⟨0, by decide⟩) frameReplyM1 frameReplyM1 "PRI" "SEC"
    msgReplyM1 msgReplyM1 rfl (Or.inl rfl) rfl rfl rfl (Or.inl rfl) rfl (by decide)
  exact ⟨h.1.mpr (Or.inr (by decide)), h.2.1, fun hmem =>
    absurd ((h.2.2).mp hmem) (by decide)⟩

/-! ### Claim C3: replies to upstream CALLs are routed back one-shot -/

theorem handleUpstreamMessage_call_fst (r : RouterState)
    (upstreams : List Upstream) (co : Bool) (callData : RawFrame) (L : String)
    (callMsg : OcppMessage)
    (hparse : parseMessage callData = some callMsg)
    (htype : callMsg.type = Json.num 2) :
    (handleUpstreamMessage r upstreams co callData L).1 =
      registerServerCall r callMsg.messageId L := by
  have h34 : (callMsg.type == Json.num 3 || callMsg.type == Json.num 4) = false := by
    simp [htype]
  simp only [handleUpstreamMessage, hparse, handleServerMessage, htype, beq_self_eq_true,
    if_true, h34, Bool.false_eq_true, if_false]
  cases co <;> simp

theorem handleClientMessage_reply_known (r1 : RouterState)
    (upstreams : List Upstream) (replyData : RawFrame) (replyMsg : OcppMessage)
    (L : String) (u : Upstream)
    (hparse : parseMessage replyData = some replyMsg)
    (htype : replyMsg.type = Json.num 3 ∨ replyMsg.type = Json.num 4)
    (hget : mapGet r1.messageIdToServer replyMsg.messageId = some L)
    (hL : L ≠ "")
    (hfind : upstreams.find? (fun v => v.name == L) = some u)
    (hconn : u.isConnected = true) :
    handleClientMessage r1 upstreams replyData =
      ({ r1 with messageIdToServer := mapDelete r1.messageIdToServer replyMsg.messageId },
        [Action.sendUpstream u.name replyData]) := by
  have h2 : (replyMsg.type == Json.num 2) = false := by
    rcases htype with h | h <;> simp [h]
  have h34 : (replyMsg.type == Json.num 3 || replyMsg.type == Json.num 4) = true := by
    rcases htype with h | h <;> simp [h]
  have hL2 : truthyStr (some L) = true := by simp [truthyStr, hL]
  simp [handleClientMessage, hparse, routeClientMessage, h2, h34,
    getServerForResponse, hget, hL2, hfind, hconn]

theorem handleClientMessage_reply_unknown (r : RouterState)
    (upstreams : List Upstream) (data : RawFrame) (msg : OcppMessage)
    (hparse : parseMessage data = some msg)
    (htype : msg.type = Json.num 3 ∨ msg.type = Json.num 4)
    (hnone : mapGet r.messageIdToServer msg.messageId = none) :
    handleClientMessage r upstreams data =
      (r, [Action.warnNoServerMapping msg.messageId]) := by
  have h2 : (msg.type == Json.num 2) = false := by
    rcases htype with h | h <;> simp [h]
  have h34 : (msg.type == Json.num 3 || msg.type == Json.num 4) = true := by
    rcases htype with h | h <;> simp [h]
  have hL2 : truthyStr none = false := rfl
  simp [handleClientMessage, hparse, routeClientMessage, h2, h34,
    getServerForResponse, hnone, hL2]

/-- C3: an upstream CALL from link `L` records `server_calls[id] = L`; the
first client reply with that ID is written to `L` only, removing the entry
(so a later lookup finds nothing); a client reply whose ID has no entry is
dropped with a warning and sent to no upstream. -/
theorem server_call_reply_routed_once
    (r r3 : RouterState) (upstreams : List Upstream) (co : Bool)
    (callData replyData data3 : RawFrame) (L : String)
    (callMsg replyMsg msg3 : OcppMessage) (u : Upstream)
    (hparseC : parseMessage callData = some callMsg)
    (htypeC : callMsg.type = Json.num 2)
    (_hprimId : callMsg.messageId.isPrim = true)
    (hL : L ≠ "")
    (hparseR : parseMessage replyData = some replyMsg)
    (htypeR : replyMsg.type = Json.num 3 ∨ replyMsg.type = Json.num 4)
    (hid : replyMsg.messageId = callMsg.messageId)
    (hfind : upstreams.find? (fun v => v.name == L) = some u)
    (hconn : u.isConnected = true)
    (hparse3 : parseMessage data3 = some msg3)
    (htype3 : msg3.type = Json.num 3 ∨ msg3.type = Json.num 4)
    (hnone : mapGet r3.messageIdToServer msg3.messageId = none) :
    mapGet (handleUpstreamMessage r upstreams co callData L).1.messageIdToServer
        callMsg.messageId = some L ∧
    u.name = L ∧
    (handleClientMessage (handleUpstreamMessage r upstreams co callData L).1
        upstreams replyData).2 = [Action.sendUpstream L replyData] ∧
    mapGet (handleClientMessage (handleUpstreamMessage r upstreams co callData L).1
        upstreams replyData).1.messageIdToServer callMsg.messageId = none ∧
    (handleClientMessage r3 upstreams data3).2 =
        [Action.warnNoServerMapping msg3.messageId] ∧
    (handleClientMessage r3 upstreams data3).1 = r3 := by
  have hfst := handleUpstreamMessage_call_fst r upstreams co callData L callMsg
    hparseC htypeC
  have hbeq := List.find?_some hfind
  simp only [beq_iff_eq] at hbeq
  have hname : u.name = L := hbeq
  have hget : mapGet (handleUpstreamMessage r upstreams co callData L).1.messageIdToServer
      replyMsg.messageId = some L := by
    rw [hfst, hid]
    exact mapGet_mapSet_self r.messageIdToServer callMsg.messageId L
  have hreply := handleClientMessage_reply_known
    (handleUpstreamMessage r upstreams co callData L).1 upstreams replyData replyMsg L u
    hparseR htypeR hget hL hfind hconn
  have hunk := handleClientMessage_reply_unknown r3 upstreams data3 msg3
    hparse3 htype3 hnone
  refine ⟨?_, hname, ?_, ?_, ?_, ?_⟩
  · rw [hfst]
    exact mapGet_mapSet_self r.messageIdToServer callMsg.messageId L
  · rw [hreply, hname]
  · rw [hreply]
    simp only
    rw [← hid]
    exact mapGet_mapDelete_self _ _
  · rw [hunk]
  · rw [hunk]

/-- The frame `[2,"s9"]`: a CALL initiated by an upstream. -/
def frameCallS9 : RawFrame :=
  { text := "[2,\"s9\"]"
    decoded := some (Json.arr (JsonList.cons (Json.num 2)
      (JsonList.cons (Json.str "s9") JsonList.nil))) }

/-- The parse of `frameCallS9`. -/
def msgCallS9 : OcppMessage :=
  { raw := frameCallS9, type := Json.num 2, messageId := Json.str "s9"
    parsed := JsonList.cons (Json.num 2) (JsonList.cons (Json.str "s9") JsonList.nil) }

/-- The frame `[3,"s9"]`: the client's reply to that CALL. -/
def frameReplyS9 : RawFrame :=
  { text := "[3,\"s9\"]"
    decoded := some (Json.arr (JsonList.cons (Json.num 3)
      (JsonList.cons (Json.str "s9") JsonList.nil))) }

/-- The parse of `frameReplyS9`. -/
def msgReplyS9 : OcppMessage :=
  { raw := frameReplyS9, type := Json.num 3, messageId := Json.str "s9"
    parsed := JsonList.cons (Json.num 3) (JsonList.cons (Json.str "s9") JsonList.nil) }

/-- The SEC upstream record of `upstreamsPriSec`. -/
def upstreamSec : Upstream :=
  { name := "SEC", isConnected := true, wasEverConnected := true
    reconnectAttempts := 0, maxReconnectAttempts := 10 }

/-- C3 witness: SEC sends CALL s9; the client's reply goes to SEC only and
the mapping is gone afterward; a reply with no mapping is dropped with a
warning. -/
theorem server_call_reply_routed_once_witness :
    mapGet (handleUpstreamMessage emptyRouter upstreamsPriSec true frameCallS9
        "SEC").1.messageIdToServer (Json.str "s9") = some "SEC" ∧
    upstreamSec.name = "SEC" ∧
    (handleClientMessage (handleUpstreamMessage emptyRouter upstreamsPriSec true
        frameCallS9 "SEC").1 upstreamsPriSec frameReplyS9).2 =
      [Action.sendUpstream "SEC" frameReplyS9] ∧
    mapGet (handleClientMessage (handleUpstreamMessage emptyRouter upstreamsPriSec true
        frameCallS9 "SEC").1 upstreamsPriSec frameReplyS9).1.messageIdToServer
      (Json.str "s9") = none ∧
    (handleClientMessage emptyRouter upstreamsPriSec frameReplyM1).2 =
      [Action.warnNoServerMapping (Json.str "m1")] ∧
    (handleClientMessage emptyRouter upstreamsPriSec frameReplyM1).1 = emptyRouter :=
  server_call_reply_routed_once emptyRouter emptyRouter upstreamsPriSec true
    frameCallS9 frameReplyS9 frameReplyM1 "SEC" msgCallS9 msgReplyS9 msgReplyM1
    upstreamSec rfl rfl rfl (by decide) rfl (Or.inl rfl) rfl (by decide) rfl rfl
    (Or.inl rfl) rfl

/-! ### Claim C9: at most one session per client ID -/

/-- C9: when a connection arrives for a client ID, any existing session with
that ID is closed with 1001 ("Replaced by a new connection") and removed
before the new session is registered; with unique socket identities the
registry keeps at most one session per client ID. -/
theorem registry_unique_client_ids
    (reg : List RegEntry) (newWs : Nat) (clientId : String) (e : RegEntry)
    (huniq : uniqueIds reg)
    (hfresh : ∀ x ∈ reg, x.ws ≠ newWs) :
    uniqueIds (handleNewConnection reg newWs clientId).1 ∧
    ({ ws := newWs, clientId := clientId } : RegEntry) ∈
      (handleNewConnection reg newWs clientId).1 ∧
    (∀ x ∈ (handleNewConnection reg newWs clientId).1,
      x.clientId = clientId → x.ws = newWs) ∧
    (reg.find? (fun x => x.clientId == clientId) = some e →
      (handleNewConnection reg newWs clientId).2 =
        [Action.closeClient 1001 "Replaced by a new connection"] ∧
      e ∉ (handleNewConnection reg newWs clientId).1) ∧
    (reg.find? (fun x => x.clientId == clientId) = none →
      (handleNewConnection reg newWs clientId).2 = []) := by
  cases hf : reg.find? (fun x => x.clientId == clientId) with
  | none =>
      have hno : ∀ x ∈ reg, x.clientId ≠ clientId := by
        intro x hx
        have := List.find?_eq_none.mp hf x hx
        simpa using this
      have hres : handleNewConnection reg newWs clientId =
          (reg ++ [{ ws := newWs, clientId := clientId }], []) := by
        simp [handleNewConnection, hf]
      refine ⟨?_, ?_, ?_, ?_, ?_⟩
      · rw [hres]
        refine List.pairwise_append.mpr ⟨huniq, by simp, ?_⟩
        intro x hx y hy
        simp only [List.mem_singleton] at hy
        subst hy
        exact hno x hx
      · rw [hres]; simp
      · rw [hres]
        intro x hx hid
        rcases List.mem_append.mp hx with hx | hx
        · exact absurd hid (hno x hx)
        · simp only [List.mem_singleton] at hx
          subst hx
          rfl
      · intro hcon
        simp at hcon
      · intro _
        rw [hres]
  | some e0 =>
      have he0mem : e0 ∈ reg := List.mem_of_find?_eq_some hf
      have he0id : e0.clientId = clientId := by
        have := List.find?_some hf
        simpa using this
      have hres : handleNewConnection reg newWs clientId =
          (reg.filter (fun x => !(x.ws == e0.ws)) ++
            [{ ws := newWs, clientId := clientId }],
            [Action.closeClient 1001 "Replaced by a new connection"]) := by
        simp [handleNewConnection, hf]
      have hfilter_id : ∀ x ∈ reg.filter (fun x => !(x.ws == e0.ws)),
          x.clientId ≠ clientId := by
        intro x hx
        have hxmem := (List.mem_filter.mp hx).1
        have hxne : x.ws ≠ e0.ws := by
          have := (List.mem_filter.mp hx).2
          simpa using this
        intro hxid
        have hxe0 : x ≠ e0 := fun hcontra => hxne (by rw [hcontra])
        have huniq' : reg.Pairwise (fun a b => a.clientId ≠ b.clientId) := huniq
        have hsymm : Symmetric (fun a b : RegEntry => a.clientId ≠ b.clientId) :=
          fun _ _ h => Ne.symm h
        have := List.Pairwise.forall hsymm huniq' hxmem he0mem hxe0
        exact this (hxid.trans he0id.symm)
      refine ⟨?_, ?_, ?_, ?_, ?_⟩
      · rw [hres]
        refine List.pairwise_append.mpr
          ⟨List.Pairwise.sublist (List.filter_sublist reg) huniq, by simp, ?_⟩
        intro x hx y hy
        simp only [List.mem_singleton] at hy
        subst hy
        exact hfilter_id x hx
      · rw [hres]; simp
      · rw [hres]
        intro x hx hid
        rcases List.mem_append.mp hx with hx | hx
        · exact absurd hid (hfilter_id x hx)
        · simp only [List.mem_singleton] at hx
          subst hx
          rfl
      · intro hcon
        injection hcon with he
        subst he
        refine ⟨by rw [hres], ?_⟩
        rw [hres]
        intro hmem
        rcases List.mem_append.mp hmem with hmem | hmem
        · have := (List.mem_filter.mp hmem).2
          simp at this
        · simp only [List.mem_singleton] at hmem
          exact hfresh e0 he0mem (by rw [hmem])
      · intro hcon
        simp at hcon

/-- C9 witness: a registry holding sessions for STATION01 and STATION02; a
new connection for STATION01 closes and removes the old session and
registers the new socket, keeping one session per ID. -/
theorem registry_unique_client_ids_witness :
    uniqueIds (handleNewConnection
      [⟨1, "STATION01"⟩, ⟨2, "STATION02"⟩] 3 "STATION01").1 ∧
    ({ ws := 3, clientId := "STATION01" } : RegEntry) ∈
      (handleNewConnection [⟨1, "STATION01"⟩, ⟨2, "STATION02"⟩] 3 "STATION01").1 ∧
    (handleNewConnection [⟨1, "STATION01"⟩, ⟨2, "STATION02"⟩] 3 "STATION01").2 =
      [Action.closeClient 1001 "Replaced by a new connection"] ∧
    (⟨1, "STATION01"⟩ : RegEntry) ∉
      (handleNewConnection [⟨1, "STATION01"⟩, ⟨2, "STATION02"⟩] 3 "STATION01").1 := by
  have h := registry_unique_client_ids [⟨1, "STATION01"⟩, ⟨2, "STATION02"⟩] 3
    "STATION01" ⟨1, "STATION01"⟩
    (by simp [uniqueIds]) (by intro x hx; fin_cases hx <;> simp)
  have hdup := h.2.2.2.1 (by rfl)
  exact ⟨h.1, h.2.1, hdup.1, hdup.2⟩

/-! ### Claim C7: reconnection back-off -/

/-- The number of `onGaveUp` firings in an output list. -/
def countGaveUp (outs : List LinkOut) : Nat := outs.count LinkOut.gaveUp

/-- A link whose socket and timer are both spent: no event source is left. -/
def deadLink (s : LinkState) : Prop :=
  s.sock = SockPhase.idle ∧ s.timer = none

theorem linkStep_dead (s : LinkState) (e : LinkEvent) (h : deadLink s) :
    deadLink (linkStep s e).1 ∧ (linkStep s e).2 = [] := by
  obtain ⟨hs, ht⟩ := h
  cases e <;> simp [linkStep, hs, ht, deadLink, connectLink]

theorem linkRun_dead (s : LinkState) (evs : List LinkEvent) (h : deadLink s) :
    (linkRun s evs).2 = [] := by
  induction evs generalizing s with
  | nil => rfl
  | cons e rest ih =>
      have hd := linkStep_dead s e h
      simp [linkRun, hd.2, ih _ hd.1]

theorem linkStep_gaveUp_dead (s : LinkState) (e : LinkEvent)
    (h : LinkOut.gaveUp ∈ (linkStep s e).2) : deadLink (linkStep s e).1 := by
  cases e with
  | sockOpen =>
      by_cases hc : s.sock = SockPhase.connecting
      · simp [linkStep, hc] at h
      · simp [linkStep, hc] at h
  | sockClose =>
      by_cases hc : s.sock = SockPhase.connecting ∨ s.sock = SockPhase.opened
      · by_cases hcl : s.closed = true
        · simp [linkStep, hc, hcl] at h
        · have hcl' : s.closed = false := by simpa using hcl
          simp only [linkStep, hc, if_true, hcl', Bool.false_eq_true, if_false] at h ⊢
          by_cases htm : s.timer.isSome = true
          · simp [scheduleReconnect, hcl', htm] at h
          · have htm' : s.timer = none := by
              cases hsome : s.timer <;> simp [hsome] at htm ⊢
            by_cases hm : s.maxReconnectAttempts ≤ s.reconnectAttempts
            · simp [scheduleReconnect, hcl', htm', hm, deadLink]
            · simp [scheduleReconnect, hcl', htm', hm] at h
      · simp [linkStep, hc] at h
  | timerFire =>
      cases htm : s.timer <;> simp [linkStep, htm] at h
  | ownerClose =>
      simp [linkStep] at h

theorem countGaveUp_step_le_one (s : LinkState) (e : LinkEvent) :
    countGaveUp (linkStep s e).2 ≤ 1 := by
  cases e with
  | sockOpen =>
      by_cases hc : s.sock = SockPhase.connecting <;>
        simp [linkStep, hc, countGaveUp]
  | sockClose =>
      by_cases hc : s.sock = SockPhase.connecting ∨ s.sock = SockPhase.opened
      · by_cases hcl : s.closed = true
        · simp [linkStep, hc, hcl, countGaveUp]
        · have hcl' : s.closed = false := by simpa using hcl
          simp only [linkStep, hc, if_true, hcl', Bool.false_eq_true, if_false]
          by_cases htm : s.timer.isSome = true
          · simp [scheduleReconnect, hcl', htm, countGaveUp]
          · have htm' : s.timer = none := by
              cases hsome : s.timer <;> simp [hsome] at htm ⊢
            by_cases hm : s.maxReconnectAttempts ≤ s.reconnectAttempts <;>
              simp [scheduleReconnect, hcl', htm', hm, countGaveUp]
      · simp [linkStep, hc, countGaveUp]
  | timerFire =>
      cases htm : s.timer <;> simp [linkStep, htm, countGaveUp]
  | ownerClose =>
      simp [linkStep, countGaveUp]

theorem countGaveUp_linkRun_le_one (s : LinkState) (evs : List LinkEvent) :
    countGaveUp (linkRun s evs).2 ≤ 1 := by
  induction evs generalizing s with
  | nil => simp [linkRun, countGaveUp]
  | cons e rest ih =>
      by_cases hg : LinkOut.gaveUp ∈ (linkStep s e).2
      · have hdead := linkStep_gaveUp_dead s e hg
        have hrest := linkRun_dead (linkStep s e).1 rest hdead
        simp only [linkRun, countGaveUp, List.count_append, hrest, List.count_nil,
          Nat.add_zero]
        exact countGaveUp_step_le_one s e
      · have hz : List.count LinkOut.gaveUp (linkStep s e).2 = 0 :=
          List.count_eq_zero.mpr hg
        simp only [linkRun, countGaveUp, List.count_append, hz, Nat.zero_add]
        exact ih (linkStep s e).1

theorem linkStep_attempts (s : LinkState) (e : LinkEvent)
    (h : s.reconnectAttempts ≤ s.maxReconnectAttempts) :
    (linkStep s e).1.reconnectAttempts ≤ (linkStep s e).1.maxReconnectAttempts ∧
    (linkStep s e).1.maxReconnectAttempts = s.maxReconnectAttempts := by
  cases e with
  | sockOpen =>
      by_cases hc : s.sock = SockPhase.connecting <;> simp [linkStep, hc, h]
  | sockClose =>
      by_cases hc : s.sock = SockPhase.connecting ∨ s.sock = SockPhase.opened
      · by_cases hcl : s.closed = true
        · simp [linkStep, hc, hcl, h]
        · have hcl' : s.closed = false := by simpa using hcl
          simp only [linkStep, hc, if_true, hcl', Bool.false_eq_true, if_false]
          by_cases htm : s.timer.isSome = true
          · simp [scheduleReconnect, hcl', htm, h]
          · have htm' : s.timer = none := by
              cases hsome : s.timer <;> simp [hsome] at htm ⊢
            by_cases hm : s.maxReconnectAttempts ≤ s.reconnectAttempts
            · simp [scheduleReconnect, hcl', htm', hm, h]
            · simp [scheduleReconnect, hcl', htm', hm]
              omega
      · simp [linkStep, hc, h]
  | timerFire =>
      cases htm : s.timer with
      | none => simp [linkStep, htm, h]
      | some d =>
          by_cases hic : s.isConnected = true <;>
            simp [linkStep, htm, connectLink, hic, h]
  | ownerClose =>
      simp [linkStep, h]

theorem linkStep_scheduled (s : LinkState) (e : LinkEvent) (d : Nat)
    (h : LinkOut.scheduled d ∈ (linkStep s e).2) :
    s.reconnectAttempts < s.maxReconnectAttempts ∧
    d = reconnectDelay (s.reconnectAttempts + 1) := by
  cases e with
  | sockOpen =>
      by_cases hc : s.sock = SockPhase.connecting <;> simp [linkStep, hc] at h
  | sockClose =>
      by_cases hc : s.sock = SockPhase.connecting ∨ s.sock = SockPhase.opened
      · by_cases hcl : s.closed = true
        · simp [linkStep, hc, hcl] at h
        · have hcl' : s.closed = false := by simpa using hcl
          simp only [linkStep, hc, if_true, hcl', Bool.false_eq_true, if_false] at h
          by_cases htm : s.timer.isSome = true
          · simp [scheduleReconnect, hcl', htm] at h
          · have htm' : s.timer = none := by
              cases hsome : s.timer <;> simp [hsome] at htm ⊢
            by_cases hm : s.maxReconnectAttempts ≤ s.reconnectAttempts
            · simp [scheduleReconnect, hcl', htm', hm] at h
            · simp [scheduleReconnect, hcl', htm', hm] at h
              exact ⟨by omega, h⟩
      · simp [linkStep, hc] at h
  | timerFire =>
      cases htm : s.timer <;> simp [linkStep, htm] at h
  | ownerClose =>
      simp [linkStep] at h

theorem linkRun_scheduled (s : LinkState) (evs : List LinkEvent) (d : Nat)
    (hle : s.reconnectAttempts ≤ s.maxReconnectAttempts)
    (hmax : s.maxReconnectAttempts = 10)
    (h : LinkOut.scheduled d ∈ (linkRun s evs).2) :
    ∃ m, 1 ≤ m ∧ m ≤ 10 ∧ d = reconnectDelay m := by
  induction evs generalizing s with
  | nil => simp [linkRun] at h
  | cons e rest ih =>
      simp only [linkRun, List.mem_append] at h
      rcases h with h | h
      · obtain ⟨hlt, hd⟩ := linkStep_scheduled s e d h
        exact ⟨s.reconnectAttempts + 1, by omega, by omega, hd⟩
      · obtain ⟨h1, h2⟩ := linkStep_attempts s e hle
        exact ih (linkStep s e).1 h1 (h2.trans hmax) h

theorem linkRun_attempts_le (s : LinkState) (evs : List LinkEvent)
    (hle : s.reconnectAttempts ≤ s.maxReconnectAttempts)
    (hmax : s.maxReconnectAttempts = 10) :
    (linkRun s evs).1.reconnectAttempts ≤ 10 := by
  induction evs generalizing s with
  | nil => simp [linkRun]; omega
  | cons e rest ih =>
      obtain ⟨h1, h2⟩ := linkStep_attempts s e hle
      simpa [linkRun] using ih (linkStep s e).1 h1 (h2.trans hmax)

/-- C7: the delay scheduled for attempt `n` equals
`min(5000 * 2 ^ (n - 1), 60000)` ms, giving the literal sequence for
attempts 1..10; once ten attempts are spent, `scheduleReconnect` emits
`onGaveUp` leaving the state (notably `closed = false`) untouched, and in
any event trace of a fresh link `onGaveUp` fires at most once, the attempt
counter never passes 10, and every scheduled delay belongs to attempts
1..10. -/
theorem reconnect_backoff_policy (s : LinkState) (n : Nat)
    (evs : List LinkEvent) (d : Nat)
    (hclosed : s.closed = false) (htimer : s.timer = none)
    (hmax : s.maxReconnectAttempts = 10) (hn : s.reconnectAttempts + 1 = n) :
    (n ≤ 10 → scheduleReconnect s =
      ({ s with
          reconnectAttempts := n
          timer := some (min (5000 * 2 ^ (n - 1)) 60000) },
        [LinkOut.scheduled (min (5000 * 2 ^ (n - 1)) 60000)])) ∧
    (List.range 10).map (fun k => reconnectDelay (k + 1)) =
      [5000, 10000, 20000, 40000, 60000, 60000, 60000, 60000, 60000, 60000] ∧
    (10 ≤ s.reconnectAttempts →
      scheduleReconnect s = (s, [LinkOut.gaveUp]) ∧
      (scheduleReconnect s).1.closed = false) ∧
    countGaveUp (linkRun initLink evs).2 ≤ 1 ∧
    (linkRun initLink evs).1.reconnectAttempts ≤ 10 ∧
    (LinkOut.scheduled d ∈ (linkRun initLink evs).2 →
      ∃ m, 1 ≤ m ∧ m ≤ 10 ∧ d = reconnectDelay m) := by
  refine ⟨?_, by decide, ?_, countGaveUp_linkRun_le_one initLink evs,
    linkRun_attempts_le initLink evs (by simp [initLink]) rfl, ?_⟩
  · intro hle
    have hm : ¬(s.maxReconnectAttempts ≤ s.reconnectAttempts) := by omega
    simp [scheduleReconnect, hclosed, htimer, hm, hn, reconnectDelay]
  · intro hge
    have hm : s.maxReconnectAttempts ≤ s.reconnectAttempts := by omega
    constructor
    · simp [scheduleReconnect, hclosed, htimer, hm]
    · simp [scheduleReconnect, hclosed, htimer, hm, hclosed]
  · exact linkRun_scheduled initLink evs d (by simp [initLink]) rfl

/-- C7 witness: from a fresh link, one socket close schedules attempt 1 with
delay 5000 ms; the delay table, the at-most-once give-up bound and the
attempt bound are checked on that trace. -/
theorem reconnect_backoff_policy_witness :
    (1 ≤ 10 → scheduleReconnect initLink =
      ({ initLink with
          reconnectAttempts := 1
          timer := some (min (5000 * 2 ^ (1 - 1)) 60000) },
        [LinkOut.scheduled (min (5000 * 2 ^ (1 - 1)) 60000)])) ∧
    (List.range 10).map (fun k => reconnectDelay (k + 1)) =
      [5000, 10000, 20000, 40000, 60000, 60000, 60000, 60000, 60000, 60000] ∧
    (10 ≤ initLink.reconnectAttempts →
      scheduleReconnect initLink = (initLink, [LinkOut.gaveUp]) ∧
      (scheduleReconnect initLink).1.closed = false) ∧
    countGaveUp (linkRun initLink [LinkEvent.sockClose]).2 ≤ 1 ∧
    (linkRun initLink [LinkEvent.sockClose]).1.reconnectAttempts ≤ 10 ∧
    (LinkOut.scheduled 5000 ∈ (linkRun initLink [LinkEvent.sockClose]).2 →
      ∃ m, 1 ≤ m ∧ m ≤ 10 ∧ 5000 = reconnectDelay m) :=
  reconnect_backoff_policy initLink 1 [LinkEvent.sockClose] 5000 rfl rfl rfl rfl

/-! ### Claim C4: client CALLs are registered before the fan-out and persist -/

theorem handleClientMessage_call (r : RouterState) (upstreams : List Upstream)
    (data : RawFrame) (msg : OcppMessage)
    (hparse : parseMessage data = some msg)
    (htype : msg.type = Json.num 2) :
    handleClientMessage r upstreams data =
      (registerClientCall r msg.messageId,
        Action.registerCall msg.messageId :: Action.notifyCallFromClient data ::
          upstreams.map (fun u => upstreamSend u data)) := by
  simp [handleClientMessage, hparse, routeClientMessage, htype]

theorem routeClientMessage_clientCallIds (r : RouterState) (msg : OcppMessage) :
    (routeClientMessage r msg).2.1.clientCallIds = r.clientCallIds := by
  unfold routeClientMessage getServerForResponse
  by_cases h2 : (msg.type == Json.num 2) = true
  · simp [h2]
  · simp only [h2, Bool.false_eq_true, if_false]
    by_cases h34 : (msg.type == Json.num 3 || msg.type == Json.num 4) = true
    · simp only [h34, if_true]
      by_cases ht : truthyStr (mapGet r.messageIdToServer msg.messageId) = true
      · simp [ht]
      · have ht' : truthyStr (mapGet r.messageIdToServer msg.messageId) = false := by
          simpa using ht
        simp [ht']
    · simp [h34]

theorem handleClientMessage_fst (r : RouterState) (ups : List Upstream)
    (data : RawFrame) :
    (handleClientMessage r ups data).1 = r ∨
    ∃ msg, parseMessage data = some msg ∧
      ((handleClientMessage r ups data).1 = (routeClientMessage r msg).2.1 ∨
       (handleClientMessage r ups data).1 =
         registerClientCall (routeClientMessage r msg).2.1 msg.messageId) := by
  unfold handleClientMessage
  cases hp : parseMessage data with
  | none => left; rfl
  | some msg =>
      right
      refine ⟨msg, rfl, ?_⟩
      by_cases hall : (routeClientMessage r msg).1.sendToAll = true
      · simp only [hall, if_true]
        by_cases h2 : (msg.type == Json.num 2) = true
        · right; simp [h2]
        · left
          have h2' : (msg.type == Json.num 2) = false := by simpa using h2
          simp [h2']
      · have hall' : (routeClientMessage r msg).1.sendToAll = false := by simpa using hall
        simp only [hall', Bool.false_eq_true, if_false]
        left
        cases hs : (routeClientMessage r msg).1.sendToServer with
        | none => simp
        | some target =>
            cases hf : ups.find? (fun u => u.name == target) with
            | none => simp [hf]
            | some u =>
                by_cases hc : u.isConnected = true
                · simp [hf, hc]
                · have hc' : u.isConnected = false := by simpa using hc
                  simp [hf, hc']

theorem handleClientMessage_clientCalls_mono (r : RouterState)
    (ups : List Upstream) (data : RawFrame) (i : Json)
    (h : i ∈ r.clientCallIds) :
    i ∈ (handleClientMessage r ups data).1.clientCallIds := by
  rcases handleClientMessage_fst r ups data with he | ⟨msg, _, he | he⟩
  · rw [he]; exact h
  · rw [he, routeClientMessage_clientCallIds]; exact h
  · rw [he]
    exact mem_setAdd_of_mem _ _ _
      (by rw [routeClientMessage_clientCallIds]; exact h)

theorem handleServerMessage_clientCallIds (r : RouterState)
    (message : Option OcppMessage) (name : String) :
    (handleServerMessage r message name).clientCallIds = r.clientCallIds := by
  cases message with
  | none => rfl
  | some msg =>
      by_cases h : (msg.type == Json.num 2) = true <;>
        simp [handleServerMessage, registerServerCall, h]

theorem handleUpstreamMessage_fst (r : RouterState) (ups : List Upstream)
    (co : Bool) (data : RawFrame) (name : String) :
    (handleUpstreamMessage r ups co data name).1 =
      handleServerMessage r (parseMessage data) name := by
  unfold handleUpstreamMessage
  dsimp only
  split
  · rfl
  · split <;> rfl

theorem routeBuffer_clientCalls_mono (ups : List Upstream) (buf : List RawFrame)
    (r : RouterState) (i : Json) (h : i ∈ r.clientCallIds) :
    i ∈ (routeBuffer ups r buf).1.clientCallIds := by
  induction buf generalizing r with
  | nil => exact h
  | cons b rest ih =>
      exact ih (handleClientMessage r ups b).1
        (handleClientMessage_clientCalls_mono r ups b i h)

theorem sendBufferToUpstream_router_mono (s : SessionState) (k : Nat) (i : Json)
    (h : i ∈ s.router.clientCallIds) :
    i ∈ (sendBufferToUpstream s k).1.router.clientCallIds := by
  unfold sendBufferToUpstream
  by_cases hb : s.messageBuffer = []
  · simp only [hb, if_true]
    exact h
  · simp only [hb, if_false]
    cases hg : s.upstreams.get? k with
    | none => exact h
    | some u =>
        by_cases hk : k = 0
        · simp only [hk, if_true]
          exact routeBuffer_clientCalls_mono s.upstreams s.messageBuffer s.router i h
        · simp only [hk, if_false]
          exact h

theorem flush_router (s : SessionState) :
    (flushMessageBufferIfAllConnected s).router = s.router := by
  unfold flushMessageBufferIfAllConnected
  split
  · rfl
  · split <;> rfl

theorem flush_alive (s : SessionState) :
    (flushMessageBufferIfAllConnected s).alive = s.alive := by
  unfold flushMessageBufferIfAllConnected
  split
  · rfl
  · split <;> rfl

theorem checkUpstreamsStatus_cases (s : SessionState) :
    checkUpstreamsStatus s = (s, []) ∨
      (checkUpstreamsStatus s).1.alive = false := by
  unfold checkUpstreamsStatus
  by_cases h1 : s.upstreams.any (fun u =>
      !u.isConnected && !u.wasEverConnected &&
        decide (u.reconnectAttempts < u.maxReconnectAttempts)) = true
  · left; simp [h1]
  · have h1' : s.upstreams.any (fun u =>
        !u.isConnected && !u.wasEverConnected &&
          decide (u.reconnectAttempts < u.maxReconnectAttempts)) = false := by
      simpa using h1
    by_cases h2 : s.upstreams.all (fun u => !u.isConnected) = true
    · right; simp [h1', h2, cleanupSession]
    · have h2' : s.upstreams.all (fun u => !u.isConnected) = false := by simpa using h2
      left; simp [h1', h2']

theorem checkUpstreamsStatus_preserves (s : SessionState) (i : Json)
    (h : i ∈ s.router.clientCallIds) :
    (checkUpstreamsStatus s).1.alive = false ∨
      i ∈ (checkUpstreamsStatus s).1.router.clientCallIds := by
  rcases checkUpstreamsStatus_cases s with hc | hc
  · right; rw [hc]; exact h
  · left; exact hc

theorem sessionStep_preserves_clientCalls (s : SessionState) (e : SessionEvent)
    (i : Json) (h : i ∈ s.router.clientCallIds) :
    (sessionStep s e).1.alive = false ∨
      i ∈ (sessionStep s e).1.router.clientCallIds := by
  by_cases ha : s.alive = true
  · cases e with
    | clientFrame data =>
        right
        simp only [sessionStep, ha, if_true, onClientMessage]
        by_cases hc : s.upstreams.any (fun u => u.isConnected) = true
        · simp only [hc, Bool.not_true, Bool.false_eq_true, if_false]
          exact handleClientMessage_clientCalls_mono s.router s.upstreams data i h
        · have hc' : s.upstreams.any (fun u => u.isConnected) = false := by simpa using hc
          simp only [hc', Bool.not_false, if_true]
          exact h
    | upstreamFrame data serverName =>
        right
        simp only [sessionStep, ha, if_true, handleUpstreamMessage_fst,
          handleServerMessage_clientCallIds]
        exact h
    | upstreamConnected k =>
        right
        simp only [sessionStep, ha, if_true, onUpstreamConnected, flush_router]
        exact sendBufferToUpstream_router_mono _ k i h
    | upstreamDisconnected k =>
        simp only [sessionStep, ha, if_true]
        exact checkUpstreamsStatus_preserves _ i h
    | upstreamGaveUp =>
        simp only [sessionStep, ha, if_true]
        refine checkUpstreamsStatus_preserves _ i ?_
        rw [flush_router]
        exact h
    | clientClosed =>
        left
        simp [sessionStep, ha, cleanupSession]
  · have ha' : s.alive = false := by simpa using ha
    cases e <;> simp [sessionStep, ha']

theorem sessionStep_alive_mono (s : SessionState) (e : SessionEvent)
    (h : (sessionStep s e).1.alive = true) : s.alive = true := by
  by_cases ha : s.alive = true
  · exact ha
  · have ha' : s.alive = false := by simpa using ha
    cases e <;> simp [sessionStep, ha'] at h

theorem sessionRun_alive_mono (s : SessionState) (evs : List SessionEvent)
    (h : (sessionRun s evs).alive = true) : s.alive = true := by
  induction evs generalizing s with
  | nil => exact h
  | cons e rest ih => exact sessionStep_alive_mono s e (ih (sessionStep s e).1 h)

theorem sessionRun_preserves_clientCalls (s : SessionState)
    (evs : List SessionEvent) (i : Json) (h : i ∈ s.router.clientCallIds)
    (hfin : (sessionRun s evs).alive = true) :
    i ∈ (sessionRun s evs).router.clientCallIds := by
  induction evs generalizing s with
  | nil => exact h
  | cons e rest ih =>
      rcases sessionStep_preserves_clientCalls s e i h with hdead | hmem
      · exfalso
        have := sessionRun_alive_mono (sessionStep s e).1 rest hfin
        rw [hdead] at this
        cases this
      · exact ih (sessionStep s e).1 hmem hfin

/-- C4: a routed (non-buffered) client CALL first registers its ID (the
`registerCall` action precedes every send in the emitted program order), is
then written to exactly the connected upstreams, and the ID is in
`clientCallIds` from registration on, for any further event sequence that
does not end the session. -/
theorem client_call_registered_before_broadcast
    (s : SessionState) (data : RawFrame) (msg : OcppMessage)
    (evs : List SessionEvent)
    (_halive : s.alive = true)
    (hconn : s.upstreams.any (fun u => u.isConnected) = true)
    (hparse : parseMessage data = some msg)
    (htype : msg.type = Json.num 2) :
    (onClientMessage s data).2 =
      Action.registerCall msg.messageId :: Action.notifyCallFromClient data ::
        s.upstreams.map (fun u => upstreamSend u data) ∧
    (∀ u ∈ s.upstreams, u.isConnected = true →
      Action.sendUpstream u.name data ∈ (onClientMessage s data).2) ∧
    (∀ name, Action.sendUpstream name data ∈ (onClientMessage s data).2 →
      ∃ u ∈ s.upstreams, u.name = name ∧ u.isConnected = true) ∧
    msg.messageId ∈ (onClientMessage s data).1.router.clientCallIds ∧
    ((sessionRun (onClientMessage s data).1 evs).alive = true →
      msg.messageId ∈
        (sessionRun (onClientMessage s data).1 evs).router.clientCallIds) := by
  have heq : onClientMessage s data =
      ({ s with router := registerClientCall s.router msg.messageId },
        Action.registerCall msg.messageId :: Action.notifyCallFromClient data ::
          s.upstreams.map (fun u => upstreamSend u data)) := by
    unfold onClientMessage
    simp only [hconn, Bool.not_true, Bool.false_eq_true, if_false]
    rw [handleClientMessage_call s.router s.upstreams data msg hparse htype]
  refine ⟨by rw [heq], ?_, ?_, ?_, ?_⟩
  · intro u hu huc
    rw [heq]
    simp only [List.mem_cons]
    right; right
    exact List.mem_map.mpr ⟨u, hu, by simp [upstreamSend, huc]⟩
  · intro name hmem
    rw [heq] at hmem
    simp only [List.mem_cons] at hmem
    rcases hmem with h1 | h1 | h1
    · simp at h1
    · simp at h1
    · rcases List.mem_map.mp h1 with ⟨u, hu, hsend⟩
      by_cases huc : u.isConnected = true
      · refine ⟨u, hu, ?_, huc⟩
        simp only [upstreamSend, huc, if_true, Action.sendUpstream.injEq] at hsend
        exact hsend.1
      · have huc' : u.isConnected = false := by simpa using huc
        simp [upstreamSend, huc'] at hsend
  · rw [heq]
    exact mem_setAdd_self _ _
  · intro hfin
    exact sessionRun_preserves_clientCalls _ evs msg.messageId
      (by rw [heq]; exact mem_setAdd_self _ _) hfin

/-- A connected PRI upstream. -/
def upstreamPri : Upstream :=
  { name := "PRI", isConnected := true, wasEverConnected := true
    reconnectAttempts := 0, maxReconnectAttempts := 10 }

/-- A SEC upstream that has never connected. -/
def upstreamSecDown : Upstream :=
  { name := "SEC", isConnected := false, wasEverConnected := false
    reconnectAttempts := 0, maxReconnectAttempts := 10 }

/-- A live session with PRI connected and SEC down. -/
def sessionPriUpSecDown : SessionState :=
  { router := emptyRouter, upstreams := [upstreamPri, upstreamSecDown]
    messageBuffer := [], clientOpen := true, alive := true }

/-- The frame `[2,"m1"]`: a client CALL. -/
def frameCallM1 : RawFrame :=
  { text := "[2,\"m1\"]"
    decoded := some (Json.arr (JsonList.cons (Json.num 2)
      (JsonList.cons (Json.str "m1") JsonList.nil))) }

/-- The parse of `frameCallM1`. -/
def msgCallM1 : OcppMessage :=
  { raw := frameCallM1, type := Json.num 2, messageId := Json.str "m1"
    parsed := JsonList.cons (Json.num 2) (JsonList.cons (Json.str "m1") JsonList.nil) }

/-- C4 witness: the CALL m1 is registered, sent to PRI (connected), warned
for SEC (down), and m1 survives a later upstream frame event. -/
theorem client_call_registered_before_broadcast_witness :
    (onClientMessage sessionPriUpSecDown frameCallM1).2 =
      [Action.registerCall (Json.str "m1"),
        Action.notifyCallFromClient frameCallM1,
        Action.sendUpstream "PRI" frameCallM1,
        Action.warnNotConnected "SEC"] ∧
    Json.str "m1" ∈
      (onClientMessage sessionPriUpSecDown frameCallM1).1.router.clientCallIds ∧
    Json.str "m1" ∈
      (sessionRun (onClientMessage sessionPriUpSecDown frameCallM1).1
        [SessionEvent.upstreamFrame frameReplyM1 "SEC"]).router.clientCallIds := by
  have h := client_call_registered_before_broadcast sessionPriUpSecDown frameCallM1
    msgCallM1 [SessionEvent.upstreamFrame frameReplyM1 "SEC"] rfl rfl rfl rfl
  exact ⟨h.1, h.2.2.2.1, h.2.2.2.2 (by decide)⟩

/-! ### Claim C5: the pre-connect buffer -/

theorem routeBuffer_mem (ups : List Upstream) (r : RouterState)
    (buf : List RawFrame) (m : RawFrame) (hm : m ∈ buf)
    (hc : ∃ mm, parseMessage m = some mm ∧ mm.type = Json.num 2)
    (u : Upstream) (hu : u ∈ ups) (huc : u.isConnected = true) :
    Action.sendUpstream u.name m ∈ (routeBuffer ups r buf).2 := by
  induction buf generalizing r with
  | nil => cases hm
  | cons b rest ih =>
      simp only [routeBuffer, List.mem_append]
      rcases List.mem_cons.mp hm with hb | hb
      · subst hb
        left
        obtain ⟨mm, hp, ht⟩ := hc
        rw [handleClientMessage_call r ups m mm hp ht]
        simp only [List.mem_cons]
        right; right
        exact List.mem_map.mpr ⟨u, hu, by simp [upstreamSend, huc]⟩
      · right
        exact ih (handleClientMessage r ups b).1 hb

/-- C5: a client frame with no connected upstream is appended to the buffer;
on connect, the primary (position 0) gets every buffered frame re-fed
through the normal client path (each buffered CALL is sent to it), a
secondary gets every buffered frame directly and exclusively; a non-empty
buffer is cleared iff every upstream is connected or out of reconnection
attempts. -/
theorem preconnect_buffer_delivery
    (s s2 s3 s4 : SessionState) (data : RawFrame) (u0 uk : Upstream) (k : Nat)
    (hnoconn : s.upstreams.any (fun u => u.isConnected) = false)
    (hbuf2 : s2.messageBuffer ≠ [])
    (hget2 : s2.upstreams.get? 0 = some u0)
    (hconn2 : u0.isConnected = true)
    (hcalls2 : ∀ m ∈ s2.messageBuffer,
      ∃ mm, parseMessage m = some mm ∧ mm.type = Json.num 2)
    (hk : k ≠ 0)
    (hget3 : s3.upstreams.get? k = some uk)
    (hconn3 : uk.isConnected = true)
    (hbuf3 : s3.messageBuffer ≠ [])
    (hbuf4 : s4.messageBuffer ≠ []) :
    onClientMessage s data =
      ({ s with messageBuffer := s.messageBuffer ++ [data] }, []) ∧
    (onUpstreamConnected s2 0).2 =
      (routeBuffer s2.upstreams s2.router s2.messageBuffer).2 ∧
    (∀ m ∈ s2.messageBuffer,
      Action.sendUpstream u0.name m ∈ (onUpstreamConnected s2 0).2) ∧
    (onUpstreamConnected s3 k).2 =
      s3.messageBuffer.map (fun m => Action.sendUpstream uk.name m) ∧
    ((flushMessageBufferIfAllConnected s4).messageBuffer = [] ↔
      ∀ u ∈ s4.upstreams, u.isConnected = true ∨
        u.maxReconnectAttempts ≤ u.reconnectAttempts) := by
  have hget2' : s2.upstreams[0]? = some u0 := by
    rw [← List.get?_eq_getElem?]
    exact hget2
  have hget3' : s3.upstreams[k]? = some uk := by
    rw [← List.get?_eq_getElem?]
    exact hget3
  have hdrain2 : (onUpstreamConnected s2 0).2 =
      (routeBuffer s2.upstreams s2.router s2.messageBuffer).2 := by
    unfold onUpstreamConnected sendBufferToUpstream
    simp [hbuf2, hget2']
  refine ⟨?_, hdrain2, ?_, ?_, ?_⟩
  · simp [onClientMessage, hnoconn]
  · intro m hm
    rw [hdrain2]
    exact routeBuffer_mem s2.upstreams s2.router s2.messageBuffer m hm
      (hcalls2 m hm) u0 (List.get?_mem hget2) hconn2
  · unfold onUpstreamConnected sendBufferToUpstream
    simp [hbuf3, hget3', hk, upstreamSend, hconn3]
  · have hne : ¬(s4.messageBuffer = []) := hbuf4
    unfold flushMessageBufferIfAllConnected
    rw [if_neg hne]
    by_cases hr : allResolved s4.upstreams = true
    · rw [if_pos hr]
      constructor
      · intro _ u hu
        have := List.all_eq_true.mp hr u hu
        simpa [allResolved] using this
      · intro _
        rfl
    · rw [if_neg hr]
      constructor
      · intro hcon
        exact absurd hcon hbuf4
      · intro hall
        exfalso
        apply hr
        unfold allResolved
        rw [List.all_eq_true]
        intro u hu
        rcases hall u hu with hcu | hcu <;> simp [hcu]

/-- A session whose buffer holds the CALL m1, with PRI and SEC connected
(as right after the primary's `open` event). -/
def sessionBuffered : SessionState :=
  { router := emptyRouter, upstreams := upstreamsPriSec
    messageBuffer := [frameCallM1], clientOpen := true, alive := true }

/-- C5 witness: a frame buffered while nothing is connected; the buffered
CALL re-fed on the primary's connect and sent directly on the secondary's
connect; the non-empty buffer clears iff every upstream is resolved. -/
theorem preconnect_buffer_delivery_witness :
    onClientMessage
        { router := emptyRouter, upstreams := [upstreamSecDown]
          messageBuffer := [], clientOpen := true, alive := true } frameCallM1 =
      ({ router := emptyRouter, upstreams := [upstreamSecDown]
         messageBuffer := [frameCallM1], clientOpen := true, alive := true }, []) ∧
    (onUpstreamConnected sessionBuffered 0).2 =
      (routeBuffer sessionBuffered.upstreams sessionBuffered.router
        sessionBuffered.messageBuffer).2 ∧
    (∀ m ∈ sessionBuffered.messageBuffer,
      Action.sendUpstream upstreamPri.name m ∈ (onUpstreamConnected sessionBuffered 0).2) ∧
    (onUpstreamConnected sessionBuffered 1).2 =
      sessionBuffered.messageBuffer.map
        (fun m => Action.sendUpstream upstreamSec.name m) ∧
    ((flushMessageBufferIfAllConnected sessionBuffered).messageBuffer = [] ↔
      ∀ u ∈ sessionBuffered.upstreams, u.isConnected = true ∨
        u.maxReconnectAttempts ≤ u.reconnectAttempts) := by
  have h := preconnect_buffer_delivery
    { router := emptyRouter, upstreams := [upstreamSecDown]
      messageBuffer := [], clientOpen := true, alive := true }
    sessionBuffered sessionBuffered sessionBuffered frameCallM1
    upstreamPri upstreamSec 1 rfl (by decide) rfl rfl
    (by
      intro m hm
      simp only [sessionBuffered, List.mem_singleton] at hm
      exact ⟨msgCallM1, by rw [hm]; rfl, rfl⟩)
    (by decide) rfl rfl (by decide) (by decide)
  exact h

end OcppProxy
